import Mathlib

/-!
# Swappo Matchmaking service — verification of the trade-offer lifecycle

Shallow embedding of the Swappo-Matchmaking Python service:
* `models.py` — the `TradeOfferStatus` enum and the `trade_offers` row type;
* `main.py` — the `create_trade_offer`, `update_trade_offer_status` and
  `delete_trade_offer` handlers together with their side-effect dispatch
  (`send_trade_notification`, `create_chat_room`);
* `http_client.py` — the resilient HTTP helpers that swallow all failures;
* `grpc_client.py` — the catalog client mapping and the retry configuration.

Timestamps are modelled as `Nat`, user ids as `String`, item ids as `Nat`.
-/

namespace Swappo

/-- The `TradeOfferStatus` enum from `models.py`. -/
inductive TradeOfferStatus
  | pending
  | accepted
  | rejected
  | cancelled
  | completed
deriving DecidableEq, Repr

/-- A row of the `trade_offers` table (`TradeOfferDB` in `models.py`). -/
structure TradeOfferDB where
  id : Nat
  proposer_id : String
  receiver_id : String
  offered_item_ids : List Nat
  requested_item_ids : List Nat
  status : TradeOfferStatus
  message : Option String
  created_at : Nat
  updated_at : Nat
  responded_at : Option Nat
deriving DecidableEq, Repr

/-- Errors of the PATCH handler `update_trade_offer_status` (the handler
receives the already-fetched row, so the 404 branch does not arise here):
403 "User not authorized to modify this trade offer" and
400 "Invalid status transition". -/
inductive UpdateError
  | Unauthorized
  | InvalidTransition
deriving DecidableEq, Repr

/-- The permission / transition validation block of `update_trade_offer_status`
(`main.py` lines 436–479): the proposer branch, the receiver branch, and the
403 branch for a user matching neither party. -/
def checkTransition (o : TradeOfferDB) (new_status : TradeOfferStatus)
    (user_id : String) : Except UpdateError Unit :=
  if user_id = o.proposer_id then
    if (o.status = .pending ∧ new_status = .cancelled)
        ∨ (o.status = .accepted ∧ new_status = .completed) then
      .ok ()
    else
      .error .InvalidTransition
  else if user_id = o.receiver_id then
    if (o.status = .pending ∧ (new_status = .accepted ∨ new_status = .rejected))
        ∨ (o.status = .accepted ∧ new_status = .completed) then
      .ok ()
    else
      .error .InvalidTransition
  else
    .error .Unauthorized

/-- Errors of the DELETE handler `delete_trade_offer`:
403 "Only the proposer can delete a trade offer" and
400 "Can only delete pending trade offers". -/
inductive DeleteError
  | Unauthorized
  | InvalidState
deriving DecidableEq, Repr

/-- The decision logic of `delete_trade_offer` (`main.py` lines 528–553) on an
existing row: the proposer check runs first, then the pending-status check. -/
def delete_trade_offer (o : TradeOfferDB) (user_id : String) :
    Except DeleteError Unit :=
  if user_id ≠ o.proposer_id then
    .error .Unauthorized
  else if o.status ≠ .pending then
    .error .InvalidState
  else
    .ok ()

lemma checkTransition_ok_cases (o : TradeOfferDB) (ns : TradeOfferStatus)
    (uid : String) (h : checkTransition o ns uid = .ok ()) :
    (o.status = .pending ∧ (ns = .cancelled ∨ ns = .accepted ∨ ns = .rejected))
      ∨ (o.status = .accepted ∧ ns = .completed) := by
  unfold checkTransition at h
  split_ifs at h <;> tauto

/-- Claim C1: for every stored trade offer (well-formed, so with distinct
parties) and every status-update request, the proposer succeeds exactly on
pending→cancelled and accepted→completed, the receiver exactly on
pending→{accepted,rejected} and accepted→completed, a stranger fails with
`Unauthorized`, every other triple fails with `InvalidTransition`, and offers
in `rejected`, `cancelled` or `completed` accept no further transitions. -/
theorem update_status_transition_table (o : TradeOfferDB)
    (ns : TradeOfferStatus) (uid : String)
    (hWf : o.proposer_id ≠ o.receiver_id) :
    (checkTransition o ns uid = .ok () ↔
      ((uid = o.proposer_id ∧
          ((o.status = .pending ∧ ns = .cancelled)
            ∨ (o.status = .accepted ∧ ns = .completed)))
        ∨ (uid = o.receiver_id ∧
            ((o.status = .pending ∧ (ns = .accepted ∨ ns = .rejected))
              ∨ (o.status = .accepted ∧ ns = .completed)))))
    ∧ (checkTransition o ns uid = .error .Unauthorized ↔
        (uid ≠ o.proposer_id ∧ uid ≠ o.receiver_id))
    ∧ (checkTransition o ns uid = .error .InvalidTransition ↔
        ((uid = o.proposer_id ∧
            ¬((o.status = .pending ∧ ns = .cancelled)
              ∨ (o.status = .accepted ∧ ns = .completed)))
          ∨ (uid = o.receiver_id ∧
              ¬((o.status = .pending ∧ (ns = .accepted ∨ ns = .rejected))
                ∨ (o.status = .accepted ∧ ns = .completed)))))
    ∧ ((o.status = .rejected ∨ o.status = .cancelled ∨ o.status = .completed) →
        checkTransition o ns uid ≠ .ok ()) := by
  refine ⟨?_, ?_, ?_, ?_⟩
  · unfold checkTransition
    split_ifs <;> simp_all
  · unfold checkTransition
    split_ifs <;> simp_all
  · unfold checkTransition
    split_ifs <;> simp_all
  · intro hterm hok
    rcases checkTransition_ok_cases o ns uid hok with ⟨hp, _⟩ | ⟨ha, _⟩ <;>
      rcases hterm with h1 | h1 | h1 <;> simp_all

/-- Concrete instance of `update_status_transition_table`: on a pending offer
between "alice" and "bob", the receiver "bob" may accept. -/
theorem update_status_transition_table_witness :
    checkTransition
      { id := 1, proposer_id := "alice", receiver_id := "bob",
        offered_item_ids := [1], requested_item_ids := [2],
        status := .pending, message := none,
        created_at := 0, updated_at := 0, responded_at := none }
      .accepted "bob" = .ok () :=
  (update_status_transition_table
      { id := 1, proposer_id := "alice", receiver_id := "bob",
        offered_item_ids := [1], requested_item_ids := [2],
        status := .pending, message := none,
        created_at := 0, updated_at := 0, responded_at := none }
      .accepted "bob" (by decide)).1.mpr
    (Or.inr ⟨rfl, Or.inl ⟨rfl, Or.inl rfl⟩⟩)

/-- Claim C9: deletion of an existing offer succeeds exactly for the proposer
on a pending offer; any non-proposer (receiver included, on any status) gets
`Unauthorized`; the proposer on a non-pending offer gets `InvalidState`. The
`Unauthorized` characterization is independent of the status, which is the
"Unauthorized decided before the pending-status check" ordering. -/
theorem delete_offer_decision (o : TradeOfferDB) (uid : String) :
    (delete_trade_offer o uid = .ok () ↔
      (uid = o.proposer_id ∧ o.status = .pending))
    ∧ (delete_trade_offer o uid = .error .Unauthorized ↔ uid ≠ o.proposer_id)
    ∧ (delete_trade_offer o uid = .error .InvalidState ↔
        (uid = o.proposer_id ∧ o.status ≠ .pending)) := by
  unfold delete_trade_offer
  split_ifs <;> simp_all

/-! ## Status update: commit, `responded_at` stamping, side-effect dispatch -/

/-- The mutation block of `update_trade_offer_status` (`main.py` lines
481–491): assign the new status, stamp `responded_at` when the new status is
`accepted` or `rejected`, and let the store stamp `updated_at` on commit
(`onupdate=func.now()` in `models.py`). -/
def applyUpdate (o : TradeOfferDB) (new_status : TradeOfferStatus)
    (now : Nat) : TradeOfferDB :=
  { o with
    status := new_status
    responded_at :=
      if new_status = .accepted ∨ new_status = .rejected then some now
      else o.responded_at
    updated_at := now }

/-- Outcome of one resilient HTTP side-effect call as observed by
`http_client.py`: either a response with a status code, or a raised exception
(circuit open, transport error after retries, timeout — all are caught by the
`except Exception` blocks of the resilient helpers). -/
inductive HttpOutcome
  | response (status_code : Nat)
  | raised
deriving DecidableEq, Repr

/-- The helper `send_notification_resilient` (`http_client.py` lines 65–91): returns
`true` on a 201 response, `false` on any other status code, and `false` on any
exception — it never propagates a failure. -/
def send_notification_resilient (outcome : HttpOutcome) : Bool :=
  match outcome with
  | .response code => code = 201
  | .raised => false

/-- The helper `create_chat_room_resilient` (`http_client.py` lines 94–120): returns the
response body on a 201 response and `none` on any other status code or any
exception — it never propagates a failure. -/
def create_chat_room_resilient (outcome : HttpOutcome) : Option Unit :=
  match outcome with
  | .response code => if code = 201 then some () else none
  | .raised => none

/-- Payload sent to the notification service by `send_trade_notification`. -/
structure NotificationData where
  user_id : String
  related_offer_id : Nat
  related_user_id : String
  type : String
  title : String
  body : String
deriving DecidableEq, Repr

/-- The payload construction of `send_trade_notification` (`main.py` lines
85–135): the recipient is the party opposite the actor, and each of the four
notifying statuses has fixed copy; any other status returns early with no
dispatch. -/
def notificationFor (offer : TradeOfferDB) (new_status : TradeOfferStatus)
    (actor_id : String) : Option NotificationData :=
  let recipient_id :=
    if actor_id = offer.receiver_id then offer.proposer_id
    else offer.receiver_id
  match new_status with
  | .accepted => some
      { user_id := recipient_id, related_offer_id := offer.id,
        related_user_id := actor_id, type := "trade_offer_accepted",
        title := "Trade Offer Accepted! 🎉",
        body := "Great news! Your trade offer has been accepted." }
  | .rejected => some
      { user_id := recipient_id, related_offer_id := offer.id,
        related_user_id := actor_id, type := "trade_offer_rejected",
        title := "Trade Offer Declined",
        body := "Your trade offer was declined. Keep exploring!" }
  | .cancelled => some
      { user_id := recipient_id, related_offer_id := offer.id,
        related_user_id := actor_id, type := "trade_offer_cancelled",
        title := "Trade Offer Cancelled",
        body := "A trade offer you received has been cancelled." }
  | .completed => some
      { user_id := recipient_id, related_offer_id := offer.id,
        related_user_id := actor_id, type := "trade_completed",
        title := "Trade Completed! ✅",
        body := "Congratulations! Your trade has been completed." }
  | .pending => none

/-- One externally observable step of the success path of
`update_trade_offer_status`, in program order. -/
inductive Step
  | commit (offer : TradeOfferDB)
  | notify (data : NotificationData) (delivered : Bool)
  | chat (delivered : Bool)
deriving DecidableEq, Repr

/-- The PATCH handler `update_trade_offer_status` (`main.py` lines 405–500) on
an already-fetched row: validate the transition, commit the mutated row, then
dispatch the notification and — only for `accepted` — the chat-room creation.
The two side-effect outcomes are inputs; their results are computed by the
resilient helpers and ignored by the handler, exactly as in the source. -/
def update_trade_offer_status (o : TradeOfferDB)
    (new_status : TradeOfferStatus) (user_id : String) (now : Nat)
    (notifyOutcome chatOutcome : HttpOutcome) :
    Except UpdateError TradeOfferDB × List Step :=
  match checkTransition o new_status user_id with
  | .error e => (.error e, [])
  | .ok _ =>
    let committed := applyUpdate o new_status now
    let notifySteps :=
      match notificationFor committed new_status user_id with
      | some d => [Step.notify d (send_notification_resilient notifyOutcome)]
      | none => []
    let chatSteps :=
      if new_status = .accepted then
        [Step.chat (create_chat_room_resilient chatOutcome).isSome]
      else []
    (.ok committed, Step.commit committed :: (notifySteps ++ chatSteps))

/-- A trade-offer row as the service can actually store it: created `pending`
with `responded_at` null by `create_trade_offer` (`main.py` lines 279–292),
then mutated only through allowed transitions of the PATCH handler. -/
inductive Reachable : TradeOfferDB → Prop
  | created (id : Nat) (pid rid : String) (off req : List Nat)
      (msg : Option String) (t : Nat) :
      Reachable
        { id := id, proposer_id := pid, receiver_id := rid,
          offered_item_ids := off, requested_item_ids := req,
          status := .pending, message := msg,
          created_at := t, updated_at := t, responded_at := none }
  | updated (o : TradeOfferDB) (ns : TradeOfferStatus) (uid : String)
      (now : Nat) :
      Reachable o → checkTransition o ns uid = .ok () →
      Reachable (applyUpdate o ns now)

lemma reachable_pending_responded_none (o : TradeOfferDB)
    (h : Reachable o) (hp : o.status = .pending) : o.responded_at = none := by
  induction h with
  | created => rfl
  | updated o ns uid now _ hok _ =>
    rcases checkTransition_ok_cases o ns uid hok with ⟨_, hns⟩ | ⟨_, hns⟩ <;>
      simp [applyUpdate] at hp <;> simp_all

/-- Claim C2: on any allowed transition of a stored (reachable) offer,
`responded_at` becomes non-null exactly when the step is the
pending→{accepted,rejected} transition (its first exit from `pending`), an
already-set `responded_at` is never modified (in particular not by
accepted→completed), and a pending→cancelled step leaves it null. -/
theorem respondedAt_set_exactly_once (o : TradeOfferDB) (ho : Reachable o)
    (ns : TradeOfferStatus) (uid : String) (now : Nat)
    (h : checkTransition o ns uid = .ok ()) :
    ((applyUpdate o ns now).responded_at ≠ none ↔
      (o.responded_at ≠ none
        ∨ (o.status = .pending ∧ (ns = .accepted ∨ ns = .rejected))))
    ∧ (∀ t, o.responded_at = some t →
        (applyUpdate o ns now).responded_at = some t)
    ∧ (ns = .cancelled → (applyUpdate o ns now).responded_at = none) := by
  rcases checkTransition_ok_cases o ns uid h with ⟨hp, hns⟩ | ⟨ha, hns⟩
  · have hnone := reachable_pending_responded_none o ho hp
    rcases hns with hc | hc | hc <;> subst hc <;> simp [applyUpdate, hp, hnone]
  · subst hns
    have hnp : o.status ≠ .pending := by simp [ha]
    simp [applyUpdate, ha]

/-- Concrete instance of `respondedAt_set_exactly_once`: a freshly created
pending offer accepted by the receiver gets `responded_at` stamped. -/
theorem respondedAt_set_exactly_once_witness :
    (applyUpdate
      { id := 1, proposer_id := "alice", receiver_id := "bob",
        offered_item_ids := [1], requested_item_ids := [2],
        status := .pending, message := none,
        created_at := 0, updated_at := 0, responded_at := none }
      .accepted 5).responded_at ≠ none :=
  (respondedAt_set_exactly_once
      { id := 1, proposer_id := "alice", receiver_id := "bob",
        offered_item_ids := [1], requested_item_ids := [2],
        status := .pending, message := none,
        created_at := 0, updated_at := 0, responded_at := none }
      (Reachable.created 1 "alice" "bob" [1] [2] none 0)
      .accepted "bob" 5 (by rfl)).1.mpr
    (Or.inr ⟨rfl, Or.inl rfl⟩)

/-- Claim C3: on every allowed transition the mutated row is committed as the
first step, strictly before any notification or chat step; the trace contains
no further commit (the committed state is never reverted); and for every
combination of side-effect outcomes — including both dependencies raising —
the handler still returns the updated offer successfully. -/
theorem update_commits_before_side_effects (o : TradeOfferDB)
    (ns : TradeOfferStatus) (uid : String) (now : Nat)
    (h : checkTransition o ns uid = .ok ()) :
    ∀ nOut cOut : HttpOutcome,
      (update_trade_offer_status o ns uid now nOut cOut).1
          = .ok (applyUpdate o ns now)
      ∧ ∃ rest,
          (update_trade_offer_status o ns uid now nOut cOut).2
              = Step.commit (applyUpdate o ns now) :: rest
          ∧ ∀ s ∈ rest, ∀ o2, s ≠ Step.commit o2 := by
  intro nOut cOut
  unfold update_trade_offer_status
  rw [h]
  refine ⟨rfl, _, rfl, ?_⟩
  intro s hs o2
  rcases hns : notificationFor (applyUpdate o ns now) ns uid with _ | d <;>
    simp [hns] at hs <;>
    [skip; rcases hs with hs | hs] <;>
    first
      | (rcases hs with ⟨hacc, hs⟩; subst hs; simp)
      | (subst hs; simp)

/-- Concrete instance of `update_commits_before_side_effects`: the receiver
accepts a pending offer while both the notification service and the chat
service raise, and the handler still returns the committed row first. -/
theorem update_commits_before_side_effects_witness :
    (update_trade_offer_status
      { id := 1, proposer_id := "alice", receiver_id := "bob",
        offered_item_ids := [1], requested_item_ids := [2],
        status := .pending, message := none,
        created_at := 0, updated_at := 0, responded_at := none }
      .accepted "bob" 5 .raised .raised).1
      = .ok (applyUpdate
          { id := 1, proposer_id := "alice", receiver_id := "bob",
            offered_item_ids := [1], requested_item_ids := [2],
            status := .pending, message := none,
            created_at := 0, updated_at := 0, responded_at := none }
          .accepted 5) :=
  (update_commits_before_side_effects
      { id := 1, proposer_id := "alice", receiver_id := "bob",
        offered_item_ids := [1], requested_item_ids := [2],
        status := .pending, message := none,
        created_at := 0, updated_at := 0, responded_at := none }
      .accepted "bob" 5 (by rfl) .raised .raised).1

/-- Claim C10: a successful status update changes only `status`,
`responded_at` and the store-stamped `updated_at`; every other field of the
returned row equals the corresponding field of the input row. -/
theorem update_preserves_frame (o : TradeOfferDB) (ns : TradeOfferStatus)
    (uid : String) (now : Nat) (nOut cOut : HttpOutcome) (o2 : TradeOfferDB)
    (h : (update_trade_offer_status o ns uid now nOut cOut).1 = .ok o2) :
    o2.id = o.id ∧ o2.proposer_id = o.proposer_id
    ∧ o2.receiver_id = o.receiver_id
    ∧ o2.offered_item_ids = o.offered_item_ids
    ∧ o2.requested_item_ids = o.requested_item_ids
    ∧ o2.message = o.message ∧ o2.created_at = o.created_at := by
  unfold update_trade_offer_status at h
  rcases hc : checkTransition o ns uid with e | u <;> rw [hc] at h
  · simp at h
  · simp at h
    subst h
    simp [applyUpdate]

/-- Concrete instance of `update_preserves_frame`: accepting a concrete
pending offer preserves its parties, items, message and creation time. -/
theorem update_preserves_frame_witness :
    (applyUpdate
      { id := 1, proposer_id := "alice", receiver_id := "bob",
        offered_item_ids := [1], requested_item_ids := [2],
        status := .pending, message := some "hi",
        created_at := 3, updated_at := 3, responded_at := none }
      .accepted 5).proposer_id = "alice" :=
  (update_preserves_frame
      { id := 1, proposer_id := "alice", receiver_id := "bob",
        offered_item_ids := [1], requested_item_ids := [2],
        status := .pending, message := some "hi",
        created_at := 3, updated_at := 3, responded_at := none }
      .accepted "bob" 5 .raised .raised _ (by rfl)).2.1

/-! ## Creation: local validation, catalog call, ownership checks -/

/-- One entry of the list returned by `CatalogClient.validate_items`
(`grpc_client.py` lines 176–184). The source dict key `exists` is a reserved
word in Lean, hence the field name `item_exists`. -/
structure Verdict where
  item_id : Nat
  item_exists : Bool
  is_active : Bool
  owner_id : String
deriving DecidableEq, Repr

/-- Body of a `POST /api/v1/offers` request (`TradeOfferCreate` in
`models.py`). -/
structure TradeOfferCreate where
  proposer_id : String
  receiver_id : String
  offered_item_ids : List Nat
  requested_item_ids : List Nat
  message : Option String
deriving DecidableEq, Repr

/-- The rejections of `create_trade_offer`: the four local validation errors
(400), the four catalog-verdict errors (404/400/403/403, each carrying the
full offending-id list exactly as the source formats into `detail`), and the
503 raised when the catalog dependency is unavailable. -/
inductive CreateError
  | SelfTrade
  | DuplicateOffered
  | DuplicateRequested
  | OfferedRequestedOverlap
  | ItemsNotFound (ids : List Nat)
  | ItemsInactive (ids : List Nat)
  | ProposerNotOwner (ids : List Nat)
  | ReceiverNotOwner (ids : List Nat)
  | CatalogUnavailable
deriving DecidableEq, Repr

/-- The list `invalid_ids` of the existence check (`main.py` lines 221–223): the item
ids of all verdicts with `exists` false. -/
def notFoundIds (vs : List Verdict) : List Nat :=
  (vs.filter (fun v => !v.item_exists)).map (fun v => v.item_id)

/-- The list `inactive_ids` of the activity check (`main.py` lines 230–232). -/
def inactiveIds (vs : List Verdict) : List Nat :=
  (vs.filter (fun v => !v.is_active)).map (fun v => v.item_id)

/-- The list `wrong_ids` of the offered-ownership check (`main.py` lines 239–244):
verdicts for offered items whose owner is not the proposer. -/
def wrongOwnerOfferedIds (vs : List Verdict) (offered : List Nat)
    (proposer_id : String) : List Nat :=
  (((vs.filter (fun v => v.item_id ∈ offered)).filter
      (fun v => v.owner_id ≠ proposer_id)).map (fun v => v.item_id))

/-- The list `wrong_ids` of the requested-ownership check (`main.py` lines 251–258). -/
def wrongOwnerRequestedIds (vs : List Verdict) (requested : List Nat)
    (receiver_id : String) : List Nat :=
  (((vs.filter (fun v => v.item_id ∈ requested)).filter
      (fun v => v.owner_id ≠ receiver_id)).map (fun v => v.item_id))

/-- The four verdict checks of `create_trade_offer` (`main.py` lines 220–262),
run in source order: existence, activity, offered-items owned by the proposer,
requested-items owned by the receiver. Each check raises with the complete id
list of its own violations and later checks are not reached. -/
def ownershipChecks (vs : List Verdict) (offered requested : List Nat)
    (proposer_id receiver_id : String) : Except CreateError Unit :=
  if notFoundIds vs ≠ [] then .error (.ItemsNotFound (notFoundIds vs))
  else if inactiveIds vs ≠ [] then .error (.ItemsInactive (inactiveIds vs))
  else if wrongOwnerOfferedIds vs offered proposer_id ≠ [] then
    .error (.ProposerNotOwner (wrongOwnerOfferedIds vs offered proposer_id))
  else if wrongOwnerRequestedIds vs requested receiver_id ≠ [] then
    .error (.ReceiverNotOwner (wrongOwnerRequestedIds vs requested receiver_id))
  else .ok ()

/-- What the single catalog batch call can produce for the creation handler: a
verdict list, a `CircuitBreakerError`, or a `grpc.RpcError` surviving the
retries. -/
inductive CatalogResult
  | validations (vs : List Verdict)
  | circuitOpen
  | rpcFailure
deriving DecidableEq, Repr

/-- The `POST /api/v1/offers` handler `create_trade_offer` (`main.py` lines
165–292). The second component records whether the catalog dependency was
invoked. The duplicate checks compare, as the source does, the length of the
list with the length of its set of members (`List.dedup`). -/
def create_trade_offer (req : TradeOfferCreate) (catalog : CatalogResult)
    (newId now : Nat) : Except CreateError TradeOfferDB × Bool :=
  if req.proposer_id = req.receiver_id then (.error .SelfTrade, false)
  else if req.offered_item_ids.length ≠ req.offered_item_ids.dedup.length then
    (.error .DuplicateOffered, false)
  else if req.requested_item_ids.length ≠ req.requested_item_ids.dedup.length then
    (.error .DuplicateRequested, false)
  else if req.offered_item_ids.inter req.requested_item_ids ≠ [] then
    (.error .OfferedRequestedOverlap, false)
  else
    match catalog with
    | .circuitOpen => (.error .CatalogUnavailable, true)
    | .rpcFailure => (.error .CatalogUnavailable, true)
    | .validations vs =>
      match ownershipChecks vs req.offered_item_ids req.requested_item_ids
          req.proposer_id req.receiver_id with
      | .error e => (.error e, true)
      | .ok _ =>
        (.ok { id := newId, proposer_id := req.proposer_id,
               receiver_id := req.receiver_id,
               offered_item_ids := req.offered_item_ids,
               requested_item_ids := req.requested_item_ids,
               status := .pending, message := req.message,
               created_at := now, updated_at := now, responded_at := none },
         true)

lemma mem_notFoundIds (vs : List Verdict) (i : Nat) :
    i ∈ notFoundIds vs ↔ ∃ v ∈ vs, v.item_id = i ∧ v.item_exists = false := by
  simp [notFoundIds, List.mem_map, List.mem_filter]
  tauto

lemma mem_inactiveIds (vs : List Verdict) (i : Nat) :
    i ∈ inactiveIds vs ↔ ∃ v ∈ vs, v.item_id = i ∧ v.is_active = false := by
  simp [inactiveIds, List.mem_map, List.mem_filter]
  tauto

lemma mem_wrongOwnerOfferedIds (vs : List Verdict) (offered : List Nat)
    (pid : String) (i : Nat) :
    i ∈ wrongOwnerOfferedIds vs offered pid ↔
      ∃ v ∈ vs, v.item_id = i ∧ i ∈ offered ∧ v.owner_id ≠ pid := by
  simp only [wrongOwnerOfferedIds, List.mem_map, List.mem_filter,
    decide_eq_true_eq, decide_not, Bool.not_eq_eq_eq_not, Bool.not_true,
    decide_eq_false_iff_not]
  constructor
  · rintro ⟨v, ⟨⟨hv, hmem⟩, hown⟩, hid⟩
    exact ⟨v, hv, hid, hid ▸ hmem, hown⟩
  · rintro ⟨v, hv, hid, hmem, hown⟩
    exact ⟨v, ⟨⟨hv, hid ▸ hmem⟩, hown⟩, hid⟩

lemma mem_wrongOwnerRequestedIds (vs : List Verdict) (requested : List Nat)
    (rid : String) (i : Nat) :
    i ∈ wrongOwnerRequestedIds vs requested rid ↔
      ∃ v ∈ vs, v.item_id = i ∧ i ∈ requested ∧ v.owner_id ≠ rid := by
  simp only [wrongOwnerRequestedIds, List.mem_map, List.mem_filter,
    decide_eq_true_eq, decide_not, Bool.not_eq_eq_eq_not, Bool.not_true,
    decide_eq_false_iff_not]
  constructor
  · rintro ⟨v, ⟨⟨hv, hmem⟩, hown⟩, hid⟩
    exact ⟨v, hv, hid, hid ▸ hmem, hown⟩
  · rintro ⟨v, hv, hid, hmem, hown⟩
    exact ⟨v, ⟨⟨hv, hid ▸ hmem⟩, hown⟩, hid⟩

lemma notFoundIds_eq_nil (vs : List Verdict) :
    notFoundIds vs = [] ↔ ∀ v ∈ vs, v.item_exists = true := by
  simp [notFoundIds, List.map_eq_nil_iff, List.filter_eq_nil_iff]

lemma inactiveIds_eq_nil (vs : List Verdict) :
    inactiveIds vs = [] ↔ ∀ v ∈ vs, v.is_active = true := by
  simp [inactiveIds, List.map_eq_nil_iff, List.filter_eq_nil_iff]

lemma wrongOwnerOfferedIds_eq_nil (vs : List Verdict) (offered : List Nat)
    (pid : String) :
    wrongOwnerOfferedIds vs offered pid = [] ↔
      ∀ v ∈ vs, v.item_id ∈ offered → v.owner_id = pid := by
  rw [List.eq_nil_iff_forall_not_mem]
  constructor
  · intro h v hv hmem
    by_contra hown
    exact h v.item_id
      ((mem_wrongOwnerOfferedIds vs offered pid v.item_id).mpr
        ⟨v, hv, rfl, hmem, hown⟩)
  · intro h i hi
    rcases (mem_wrongOwnerOfferedIds vs offered pid i).mp hi with
      ⟨v, hv, hid, hmem, hown⟩
    exact hown (h v hv (by rwa [hid]))

lemma wrongOwnerRequestedIds_eq_nil (vs : List Verdict) (requested : List Nat)
    (rid : String) :
    wrongOwnerRequestedIds vs requested rid = [] ↔
      ∀ v ∈ vs, v.item_id ∈ requested → v.owner_id = rid := by
  rw [List.eq_nil_iff_forall_not_mem]
  constructor
  · intro h v hv hmem
    by_contra hown
    exact h v.item_id
      ((mem_wrongOwnerRequestedIds vs requested rid v.item_id).mpr
        ⟨v, hv, rfl, hmem, hown⟩)
  · intro h i hi
    rcases (mem_wrongOwnerRequestedIds vs requested rid i).mp hi with
      ⟨v, hv, hid, hmem, hown⟩
    exact hown (h v hv (by rwa [hid]))

/-- Claim C4: the four verdict checks of creation run in the fixed source
order existence, activity, offered-ownership, requested-ownership; the result
is the error of the first check with any violating item; that error carries
exactly the ids violating that check (complete, characterized by membership);
and later checks are never reported when an earlier one has violations. -/
theorem ownership_checks_first_failure_complete_ids (vs : List Verdict)
    (offered requested : List Nat) (pid rid : String) :
    (ownershipChecks vs offered requested pid rid = .ok () ↔
      ((∀ v ∈ vs, v.item_exists = true) ∧ (∀ v ∈ vs, v.is_active = true)
        ∧ (∀ v ∈ vs, v.item_id ∈ offered → v.owner_id = pid)
        ∧ (∀ v ∈ vs, v.item_id ∈ requested → v.owner_id = rid)))
    ∧ (ownershipChecks vs offered requested pid rid
          = .error (.ItemsNotFound (notFoundIds vs)) ↔
        ∃ v ∈ vs, v.item_exists = false)
    ∧ (ownershipChecks vs offered requested pid rid
          = .error (.ItemsInactive (inactiveIds vs)) ↔
        ((∀ v ∈ vs, v.item_exists = true) ∧ ∃ v ∈ vs, v.is_active = false))
    ∧ (ownershipChecks vs offered requested pid rid
          = .error (.ProposerNotOwner (wrongOwnerOfferedIds vs offered pid)) ↔
        ((∀ v ∈ vs, v.item_exists = true) ∧ (∀ v ∈ vs, v.is_active = true)
          ∧ ∃ v ∈ vs, v.item_id ∈ offered ∧ v.owner_id ≠ pid))
    ∧ (ownershipChecks vs offered requested pid rid
          = .error (.ReceiverNotOwner (wrongOwnerRequestedIds vs requested rid)) ↔
        ((∀ v ∈ vs, v.item_exists = true) ∧ (∀ v ∈ vs, v.is_active = true)
          ∧ (∀ v ∈ vs, v.item_id ∈ offered → v.owner_id = pid)
          ∧ ∃ v ∈ vs, v.item_id ∈ requested ∧ v.owner_id ≠ rid))
    ∧ (∀ i, i ∈ notFoundIds vs ↔
        ∃ v ∈ vs, v.item_id = i ∧ v.item_exists = false)
    ∧ (∀ i, i ∈ inactiveIds vs ↔
        ∃ v ∈ vs, v.item_id = i ∧ v.is_active = false)
    ∧ (∀ i, i ∈ wrongOwnerOfferedIds vs offered pid ↔
        ∃ v ∈ vs, v.item_id = i ∧ i ∈ offered ∧ v.owner_id ≠ pid)
    ∧ (∀ i, i ∈ wrongOwnerRequestedIds vs requested rid ↔
        ∃ v ∈ vs, v.item_id = i ∧ i ∈ requested ∧ v.owner_id ≠ rid) := by
  refine ⟨?_, ?_, ?_, ?_, ?_, mem_notFoundIds vs, mem_inactiveIds vs,
    mem_wrongOwnerOfferedIds vs offered pid,
    mem_wrongOwnerRequestedIds vs requested rid⟩ <;>
  · unfold ownershipChecks
    split_ifs <;>
      simp_all [notFoundIds_eq_nil, inactiveIds_eq_nil,
        wrongOwnerOfferedIds_eq_nil, wrongOwnerRequestedIds_eq_nil]

/-- Concrete instance of `ownership_checks_first_failure_complete_ids`: with
item 7 nonexistent and item 8 inactive, the existence check wins and reports
exactly [7]. -/
theorem ownership_checks_first_failure_complete_ids_witness :
    ownershipChecks
      [ { item_id := 7, item_exists := false, is_active := true,
          owner_id := "a" },
        { item_id := 8, item_exists := true, is_active := false,
          owner_id := "a" } ]
      [7] [8] "a" "b"
      = .error (.ItemsNotFound [7]) :=
  (ownership_checks_first_failure_complete_ids
      [ { item_id := 7, item_exists := false, is_active := true,
          owner_id := "a" },
        { item_id := 8, item_exists := true, is_active := false,
          owner_id := "a" } ]
      [7] [8] "a" "b").2.1.mpr
    ⟨{ item_id := 7, item_exists := false, is_active := true,
       owner_id := "a" }, by simp, rfl⟩

/-- Claim C5: a creation request with a duplicate inside either item list, an
overlap between the two lists, or identical proposer and receiver is rejected
with one of the local validation errors and the catalog dependency is not
invoked. -/
theorem create_rejects_before_catalog_call (req : TradeOfferCreate)
    (catalog : CatalogResult) (newId now : Nat)
    (h : ¬ req.offered_item_ids.Nodup ∨ ¬ req.requested_item_ids.Nodup
      ∨ req.offered_item_ids.inter req.requested_item_ids ≠ []
      ∨ req.proposer_id = req.receiver_id) :
    (create_trade_offer req catalog newId now).2 = false
    ∧ ∃ e, (create_trade_offer req catalog newId now).1 = .error e
      ∧ (e = .SelfTrade ∨ e = .DuplicateOffered ∨ e = .DuplicateRequested
        ∨ e = .OfferedRequestedOverlap) := by
  unfold create_trade_offer
  split_ifs with hc1 hc2 hc3 hc4
  · exact ⟨rfl, .SelfTrade, rfl, Or.inl rfl⟩
  · exact ⟨rfl, .DuplicateOffered, rfl, Or.inr (Or.inl rfl)⟩
  · exact ⟨rfl, .DuplicateRequested, rfl, Or.inr (Or.inr (Or.inl rfl))⟩
  · exact ⟨rfl, .OfferedRequestedOverlap, rfl, Or.inr (Or.inr (Or.inr rfl))⟩
  · exfalso
    simp only [ne_eq, not_not] at hc2 hc3 hc4
    have hnd1 : req.offered_item_ids.Nodup := by
      have hsub := req.offered_item_ids.dedup_sublist
      rw [← hsub.eq_of_length hc2.symm]
      exact req.offered_item_ids.nodup_dedup
    have hnd2 : req.requested_item_ids.Nodup := by
      have hsub := req.requested_item_ids.dedup_sublist
      rw [← hsub.eq_of_length hc3.symm]
      exact req.requested_item_ids.nodup_dedup
    rcases h with h | h | h | h <;> simp_all

/-- Concrete instance of `create_rejects_before_catalog_call`: offering item 1
twice is rejected without calling the catalog. -/
theorem create_rejects_before_catalog_call_witness :
    (create_trade_offer
      { proposer_id := "a", receiver_id := "b",
        offered_item_ids := [1, 1], requested_item_ids := [2],
        message := none }
      (.validations []) 1 0).2 = false :=
  (create_rejects_before_catalog_call
      { proposer_id := "a", receiver_id := "b",
        offered_item_ids := [1, 1], requested_item_ids := [2],
        message := none }
      (.validations []) 1 0 (Or.inl (by simp))).1

/-! ## Catalog batch validation: one verdict per requested id -/

/-- An item row held by the catalog service. -/
structure CatalogItem where
  id : Nat
  is_active : Bool
  owner_id : String
deriving DecidableEq, Repr

/-- One `ItemValidation` message of the gRPC `ValidateItems` response, before
the client maps it to a dict. -/
structure ItemValidationMessage where
  item_id : Nat
  item_exists : Bool
  is_active : Bool
  owner_id : String
deriving DecidableEq, Repr

/-- Modelled from the spec: the `ValidateItems` handler of the catalog service is
not part of this repository (src/ holds only its gRPC client). Per §4.3 of the
spec the batch call "must return a verdict for every requested id (id not
found ⇒ exists=false, other fields absent/default)". The catalog state is a
list of items; proto scalar defaults stand in for the absent fields. -/
def catalog_validate_items (known : List CatalogItem) (item_ids : List Nat) :
    List ItemValidationMessage :=
  item_ids.map (fun i =>
    match known.find? (fun it => it.id == i) with
    | some it =>
      { item_id := i, item_exists := true, is_active := it.is_active,
        owner_id := it.owner_id }
    | none =>
      { item_id := i, item_exists := false, is_active := false,
        owner_id := "" })

/-- The response mapping of `CatalogClient.validate_items` (`grpc_client.py`
lines 176–184): one result dict per validation message of the response,
copying `item_id`, `exists`, `is_active` and `owner_id`. -/
def validate_items (resp : List ItemValidationMessage) : List Verdict :=
  resp.map (fun v =>
    { item_id := v.item_id, item_exists := v.item_exists,
      is_active := v.is_active, owner_id := v.owner_id })

/-- A successful `validate_items` call end to end: the modelled catalog
answers and the client maps the response. -/
def validate_items_call (known : List CatalogItem) (item_ids : List Nat) :
    List Verdict :=
  validate_items (catalog_validate_items known item_ids)

lemma validate_items_call_eq (known : List CatalogItem)
    (item_ids : List Nat) :
    validate_items_call known item_ids
      = item_ids.map (fun i =>
          match known.find? (fun it => it.id == i) with
          | some it =>
            { item_id := i, item_exists := true, is_active := it.is_active,
              owner_id := it.owner_id }
          | none =>
            { item_id := i, item_exists := false, is_active := false,
              owner_id := "" }) := by
  unfold validate_items_call validate_items catalog_validate_items
  rw [List.map_map]
  apply List.map_congr_left
  intro i _
  cases hfind : known.find? (fun it => it.id == i) <;>
    simp [Function.comp, hfind]

/-- Claim C8: a successful `validate_items` call yields exactly one verdict
per requested id, in request order; an id the catalog does not know still
appears, with `exists` false and the remaining fields at their defaults, so no
requested id is missing from the list the creation checks consume. -/
theorem validate_items_verdict_for_every_id (known : List CatalogItem)
    (item_ids : List Nat) :
    (validate_items_call known item_ids).map (fun v => v.item_id) = item_ids
    ∧ (validate_items_call known item_ids).length = item_ids.length
    ∧ (∀ i ∈ item_ids, (∀ it ∈ known, it.id ≠ i) →
        ({ item_id := i, item_exists := false, is_active := false,
           owner_id := "" } : Verdict) ∈ validate_items_call known item_ids) := by
  rw [validate_items_call_eq]
  refine ⟨?_, by simp, ?_⟩
  · rw [List.map_map]
    have h : ∀ i ∈ item_ids,
        ((fun v : Verdict => v.item_id) ∘ (fun i =>
          match known.find? (fun it => it.id == i) with
          | some it =>
            ({ item_id := i, item_exists := true, is_active := it.is_active,
               owner_id := it.owner_id } : Verdict)
          | none =>
            { item_id := i, item_exists := false, is_active := false,
              owner_id := "" })) i = i := by
      intro i _
      cases hfind : known.find? (fun it => it.id == i) <;>
        simp [Function.comp, hfind]
    rw [List.map_congr_left h]
    simp
  · intro i hi hnone
    have hfind : known.find? (fun it => it.id == i) = none := by
      rw [List.find?_eq_none]
      intro it hit
      simpa using hnone it hit
    rw [List.mem_map]
    exact ⟨i, hi, by simp [hfind]⟩

/-- Concrete instance of `validate_items_verdict_for_every_id`: a catalog that
knows only item 1 still returns a default verdict for unknown id 2. -/
theorem validate_items_verdict_for_every_id_witness :
    ({ item_id := 2, item_exists := false, is_active := false,
       owner_id := "" } : Verdict)
      ∈ validate_items_call
          [{ id := 1, is_active := true, owner_id := "a" }] [1, 2] :=
  (validate_items_verdict_for_every_id
      [{ id := 1, is_active := true, owner_id := "a" }] [1, 2]).2.2
    2 (by simp) (by decide)

/-! ## Retry policy (tenacity `@retry` decorators) -/

/-- Outcome of one invocation of the wrapped operation, classified as the
`@retry` decorators of `grpc_client.py` and `http_client.py` classify raised
exceptions: success, a retryable exception (`grpc.RpcError`, resp.
`httpx.RequestError` / `httpx.HTTPStatusError`), or any other exception —
`CircuitBreakerError` in particular — which the decorator reraises at once. -/
inductive AttemptOutcome
  | success
  | retryableFailure
  | nonRetryableFailure
deriving DecidableEq, Repr

/-- Result of the decorated call: a normal return, the last retryable error
reraised after the attempt budget (`reraise=True`), or a non-retryable error
reraised from the first attempt that hits it. -/
inductive RetryResult
  | ok
  | retryableRaised
  | nonRetryableRaised
deriving DecidableEq, Repr

/-- Modelled from the spec: the tenacity retry engine is third-party (not
under src/). This is the loop of a `@retry(retry=retry_if_exception_type(...),
stop=stop_after_attempt(3), reraise=True)` decorator as configured identically
in `grpc_client.py` (lines 152–157, on `validate_items`) and `http_client.py`
(lines 25–30, on `http_post_with_retry`): `op n` is the outcome of the n-th
invocation, `fuel` the remaining attempt budget; the result pairs the number
of invocations actually made with the surfaced result. -/
def retryAttempts (op : Nat → AttemptOutcome) :
    (fuel : Nat) → (attempt : Nat) → Nat × RetryResult
  | 0, attempt => (attempt - 1, .retryableRaised)
  | fuel + 1, attempt =>
    match op attempt with
    | .success => (attempt, .ok)
    | .nonRetryableFailure => (attempt, .nonRetryableRaised)
    | .retryableFailure =>
      if fuel = 0 then (attempt, .retryableRaised)
      else retryAttempts op fuel (attempt + 1)

/-- The bound `stop_after_attempt(3)`: at most 3 attempts in total. -/
def stop_after_attempt : Nat := 3

/-- The decorated operation: first attempt numbered 1, budget of 3. Models
both `http_post_with_retry` and the retry wrapper of
`CatalogClient.validate_items`, whose `@retry` configurations coincide. -/
def http_post_with_retry (op : Nat → AttemptOutcome) : Nat × RetryResult :=
  retryAttempts op stop_after_attempt 1

/-- Modelled from the spec: the tenacity wait strategy `wait_exponential(multiplier, min,
max)` — the wait in seconds after the n-th failed attempt is
`multiplier * 2^(n-1)` clamped into `[min, max]`. -/
def wait_exponential (multiplier mn mx attempt : Nat) : Nat :=
  max mn (min (multiplier * 2 ^ (attempt - 1)) mx)

/-- Claim C6: the wrapped operation is never invoked more than 3 times; two
retryable failures followed by a success return success with exactly 3
invocations; a non-retryable (or circuit-open) first outcome is surfaced
immediately with exactly 1 invocation; and the configured waits
(`multiplier=1, min=1, max=10`) follow exponential backoff with base 1s
capped at 10s. -/
theorem retry_bounded_attempts (op : Nat → AttemptOutcome) :
    (http_post_with_retry op).1 ≤ 3
    ∧ (op 1 = .retryableFailure → op 2 = .retryableFailure →
        op 3 = .success → http_post_with_retry op = (3, .ok))
    ∧ (op 1 = .nonRetryableFailure →
        http_post_with_retry op = (1, .nonRetryableRaised))
    ∧ (∀ n, 1 ≤ n →
        wait_exponential 1 1 10 n = min (2 ^ (n - 1)) 10
        ∧ wait_exponential 1 1 10 n ≤ 10
        ∧ (2 ^ (n - 1) ≤ 10 → wait_exponential 1 1 10 n = 2 ^ (n - 1))) := by
  refine ⟨?_, ?_, ?_, ?_⟩
  · rcases h1 : op 1 <;> rcases h2 : op 2 <;> rcases h3 : op 3 <;>
      simp [http_post_with_retry, stop_after_attempt, retryAttempts,
        h1, h2, h3]
  · intro h1 h2 h3
    simp [http_post_with_retry, stop_after_attempt, retryAttempts,
      h1, h2, h3]
  · intro h1
    simp [http_post_with_retry, stop_after_attempt, retryAttempts, h1]
  · intro n hn
    unfold wait_exponential
    have h2 : 1 ≤ 2 ^ (n - 1) := Nat.one_le_two_pow
    omega

/-- Concrete instance of `retry_bounded_attempts`: two retryable failures then
a success yields success after exactly 3 invocations. -/
theorem retry_bounded_attempts_witness :
    http_post_with_retry
      (fun n => if n = 3 then .success else .retryableFailure) = (3, .ok) :=
  (retry_bounded_attempts
      (fun n => if n = 3 then .success else .retryableFailure)).2.1
    rfl rfl rfl

/-! ## Circuit breaker (pybreaker, one instance per dependency) -/

/-- The three breaker states. `open` is a reserved word in Lean, hence
`opened`. -/
inductive BreakerState
  | closed
  | opened
  | halfOpen
deriving DecidableEq, Repr

/-- State record of one `pybreaker.CircuitBreaker` instance. -/
structure CircuitBreaker where
  fail_max : Nat
  reset_timeout : Nat
  state : BreakerState
  consecutiveFailures : Nat
  openedAt : Nat
deriving DecidableEq, Repr

/-- Outcome of the underlying remote operation when it is actually invoked. -/
inductive CallOutcome
  | success
  | failure
deriving DecidableEq, Repr

/-- Result of one `CircuitBreaker.call`: the breaker afterwards, whether the
underlying operation was invoked, and whether the call failed fast with
`CircuitBreakerError`. -/
structure BreakerCallResult where
  breaker : CircuitBreaker
  invoked : Bool
  circuitOpenError : Bool
deriving DecidableEq, Repr

/-- The resolution of the single probe allowed in half-open state: success
closes the breaker and resets the consecutive-failure counter; failure reopens
it, restarting the reset timeout from now. -/
def probeCall (cb : CircuitBreaker) (now : Nat) (op : CallOutcome) :
    BreakerCallResult :=
  match op with
  | .success =>
    { breaker := { cb with state := .closed, consecutiveFailures := 0 },
      invoked := true, circuitOpenError := false }
  | .failure =>
    { breaker := { cb with state := .opened, openedAt := now },
      invoked := true, circuitOpenError := true }

/-- Modelled from the spec: the breaker engine is `pybreaker` (third-party,
not under src/); §4.1 of the spec describes its states and transitions, which
this step function implements. In closed state the operation runs: success
resets the counter, a failure increments it and the `fail_max`-th consecutive
failure trips the breaker (raising `CircuitBreakerError`). In open state a
call before the reset timeout fails fast without invoking the operation; the
call arriving after the timeout becomes the probe. In the sequential model a
call in half-open state is the probe. -/
def breaker_call (cb : CircuitBreaker) (now : Nat) (op : CallOutcome) :
    BreakerCallResult :=
  match cb.state with
  | .opened =>
    if cb.reset_timeout ≤ now - cb.openedAt then probeCall cb now op
    else { breaker := cb, invoked := false, circuitOpenError := true }
  | .halfOpen => probeCall cb now op
  | .closed =>
    match op with
    | .success =>
      { breaker := { cb with consecutiveFailures := 0 },
        invoked := true, circuitOpenError := false }
    | .failure =>
      if cb.fail_max ≤ cb.consecutiveFailures + 1 then
        { breaker :=
            { cb with
              state := .opened
              consecutiveFailures := cb.consecutiveFailures + 1
              openedAt := now }
          invoked := true
          circuitOpenError := true }
      else
        { breaker := { cb with consecutiveFailures := cb.consecutiveFailures + 1 }
          invoked := true
          circuitOpenError := false }

/-- The instance `catalog_circuit_breaker` (`grpc_client.py` lines 31–33):
`fail_max=5, reset_timeout=60`, initially closed. -/
def catalog_circuit_breaker : CircuitBreaker :=
  { fail_max := 5, reset_timeout := 60, state := .closed,
    consecutiveFailures := 0, openedAt := 0 }

/-- Modelled from the spec: construction of a `pybreaker.CircuitBreaker`
(third-party, not under src/). Its configuration keywords are `fail_max`
(default 5) and `reset_timeout` (default 60); like any Python callable it
raises `TypeError` for an unexpected keyword argument such as
`timeout_duration`, so such a construction yields no breaker at all (the
module fails to load). -/
def circuit_breaker_init (fail_max : Nat) (reset_timeout : Option Nat)
    (timeout_duration : Option Nat) : Option CircuitBreaker :=
  match timeout_duration with
  | some _ => none
  | none => some
      { fail_max := fail_max
        reset_timeout := reset_timeout.getD 60
        state := .closed
        consecutiveFailures := 0
        openedAt := 0 }

/-- The construction of `notification_circuit_breaker` (`http_client.py` lines
16–18): the source passes `fail_max=5` and `timeout_duration=60` — the latter
is not a `pybreaker` keyword (`grpc_client.py` correctly uses
`reset_timeout`), so the construction raises `TypeError` and never yields a
breaker configured with the 60-second reset timeout. -/
def notification_circuit_breaker : Option CircuitBreaker :=
  circuit_breaker_init 5 none (some 60)

/-- The construction of `chat_circuit_breaker` (`http_client.py` lines 20–22):
same invalid `timeout_duration=60` keyword as the notification breaker. -/
def chat_circuit_breaker : Option CircuitBreaker :=
  circuit_breaker_init 5 none (some 60)

/-- Result of `n` consecutive failing calls at time `t` against a breaker,
with the failures reaching the breaker (the wiring of `grpc_client.py`, where
the breaker invokes the gRPC stub itself). -/
def breaker_after_failures (cb : CircuitBreaker) (t : Nat) : Nat → CircuitBreaker
  | 0 => cb
  | n + 1 => (breaker_call (breaker_after_failures cb t n) t .failure).breaker

/-- One attempt of `http_post_with_retry` (`http_client.py` lines 54–62)
against a breaker: `circuit_breaker.call(_make_request)` invokes only
`_make_request`, which builds and returns the un-awaited `client.post(...)`
coroutine and therefore never raises — the request itself runs at
`await response`, outside the breaker. So whenever the breaker invokes the
operation at all, it observes a success, whatever `requestOutcome` the awaited
request then produces. Returns the breaker afterwards, whether the request was
issued, and the outcome the caller observes. -/
def http_post_attempt (cb : CircuitBreaker) (now : Nat)
    (requestOutcome : HttpOutcome) : CircuitBreaker × Bool × HttpOutcome :=
  let r := breaker_call cb now .success
  if r.invoked then (r.breaker, true, requestOutcome)
  else (r.breaker, false, .raised)

/-- Result of `n` consecutive HTTP POST attempts that all fail at
`await response` (dependency down), at time `t`, under the wiring of
`http_post_with_retry`. -/
def http_breaker_after_failures (cb : CircuitBreaker) (t : Nat) :
    Nat → CircuitBreaker
  | 0 => cb
  | n + 1 =>
    (http_post_attempt (http_breaker_after_failures cb t n) t .raised).1

/-- Claim C7 (code bug): the claimed breaker behavior cannot hold for the
notification and chat breakers. Their construction passes
`timeout_duration=60`, which `pybreaker` rejects, while the `grpc_client.py`
construction with `reset_timeout=60` succeeds; and the HTTP wiring feeds the
breaker only the coroutine construction, which always succeeds, so on a closed
breaker every attempt leaves it closed with a zeroed counter and still issues
the request — whatever the real outcome — and after the five consecutive
failures of the claim a `fail_max=5` breaker is still closed rather than open.
Against the correctly wired catalog breaker the same five failures do trip it
open, isolating the divergence to `http_client.py`. -/
theorem http_breakers_never_open :
    notification_circuit_breaker = none
    ∧ chat_circuit_breaker = none
    ∧ circuit_breaker_init 5 (some 60) none = some catalog_circuit_breaker
    ∧ (∀ cb : CircuitBreaker, cb.state = .closed → ∀ t out,
        (http_post_attempt cb t out).1.state = .closed
        ∧ (http_post_attempt cb t out).1.consecutiveFailures = 0
        ∧ (http_post_attempt cb t out).2.1 = true)
    ∧ (http_breaker_after_failures
        { fail_max := 5, reset_timeout := 60, state := .closed,
          consecutiveFailures := 0, openedAt := 0 } 0 5).state = .closed
    ∧ (∀ t, (breaker_after_failures catalog_circuit_breaker t 5).state
        = .opened) := by
  refine ⟨rfl, rfl, rfl, ?_, by decide, ?_⟩
  · intro cb h t out
    simp [http_post_attempt, breaker_call, h]
  · intro t
    simp [breaker_after_failures, breaker_call, catalog_circuit_breaker,
      probeCall]

/-- Concrete instance of `http_breakers_never_open`: a closed breaker that has
already seen 3 consecutive failures still returns to a zero counter and stays
closed on a notification POST that fails at `await response`. -/
theorem http_breakers_never_open_witness :
    (http_post_attempt
      { fail_max := 5, reset_timeout := 60, state := .closed,
        consecutiveFailures := 3, openedAt := 0 } 7 .raised).1.state
      = .closed :=
  (http_breakers_never_open.2.2.2.1
    { fail_max := 5, reset_timeout := 60, state := .closed,
      consecutiveFailures := 3, openedAt := 0 } rfl 7 .raised).1

end Swappo
